import Mathlib

/-! Shallow embedding of the CommerceApp backend (TypeScript/Express/Stripe).

Sources embedded:
- `src/services/stripe.service.ts` (Billing Gateway Client / Payment Orchestrator)
- `src/controllers/auth.controller.ts` (registration saga)
- `src/controllers/customer.controller.ts` (profile update / mirror)
- `src/controllers/stripe.controller.ts` (payment routes, ownership checks)
- `src/middleware/validation.ts` (request validation schemas)
- `src/middleware/authentication.ts` (bearer-token middleware)
- `src/models/Customer.ts` (document schema: toJSON transform, pre-save hash)
- `src/services/storage.service.ts` (cloud storage wrapper)

The external Stripe gateway, the jsonwebtoken library and bcrypt are
collaborators outside the repository; they are modelled by explicit
environments and failure oracles, with each call the code issues recorded
in a trace of `GatewayCall`s.
-/

/-- An `AppError` as thrown throughout the code base: a message and an HTTP
status code (`src/middleware/errorHandler.ts`). -/
structure AppError where
  message : String
  status : Nat
  deriving DecidableEq, Repr

/-- Decidable equality for `Except`, used to evaluate concrete runs of the
embedded operations. -/
instance {ε α : Type} [DecidableEq ε] [DecidableEq α] : DecidableEq (Except ε α) := fun x y =>
  match x, y with
  | Except.ok a, Except.ok b => decidable_of_iff (a = b) (by simp)
  | Except.error e1, Except.error e2 => decidable_of_iff (e1 = e2) (by simp)
  | Except.ok _, Except.error _ => isFalse (by simp)
  | Except.error _, Except.ok _ => isFalse (by simp)

/-- Raw errors surfaced by the Stripe SDK before the service layer
translates them: a card-decline error (carrying the processor message,
`error.type === StripeCardError` in the source) or any other failure. -/
inductive StripeRawErr where
  | cardError (message : String)
  | other
  deriving DecidableEq, Repr

/-- One call issued against the external Stripe gateway.  The embedding
records every call the code makes, in order, so that claims about
"before any external call" and about which steps ran are statable. -/
inductive GatewayCall where
  | createCustomer (email name : String)
  | deleteCustomer (customerId : String)
  | updateCustomer (customerId : String)
  | attachPaymentMethod (paymentMethodId customerId : String)
  | setDefaultPaymentMethod (customerId paymentMethodId : String)
  | createInvoiceItem (customerId : String) (amount : Int) (currency description : String) (quantity : Nat)
  | createInvoice (customerId : String)
  | finalizeInvoice (invoiceId : String)
  | payInvoice (invoiceId paymentMethodId : String)
  | retrievePaymentIntent (paymentIntentId : String)
  | retrieveInvoice (invoiceId : String)
  | sendInvoiceEmail (invoiceId : String)
  | retrievePaymentMethod (paymentMethodId : String)
  | detachPaymentMethod (paymentMethodId : String)
  deriving DecidableEq, Repr

/-- A stored payment method as the gateway reports it:
`paymentMethod.customer` is the owning Stripe customer (null when the
method is not attached to anyone). -/
structure PmRec where
  customer : Option String
  brand : String
  last4 : String
  deriving DecidableEq, Repr

/-- An invoice as the gateway reports it; `customer` is the owning Stripe
customer id, the remaining fields are the summary the controller exposes. -/
structure InvoiceRec where
  customer : String
  number : String
  status : String
  amountPaid : Int
  currency : String
  created : Nat
  hostedInvoiceUrl : String
  invoicePdf : String
  deriving DecidableEq, Repr

/-- The external gateway environment: the identifiers and documents the
gateway would return on this run.  `paymentMethods` and `invoices` are the
gateway-side stores consulted by retrieve calls. -/
structure Env where
  invoiceId : String
  paymentIntentId : String
  hostedInvoiceUrl : String
  invoicePdfUrl : String
  cardErrMessage : String
  paymentMethods : String → Option PmRec
  invoices : String → Option InvoiceRec

/-- Which gateway calls fail on this run (the failure oracle for one
checkout attempt). -/
structure StripeFailures where
  attachFails : Bool
  setDefaultFails : Bool
  invoiceItemFails : Bool
  createInvoiceFails : Bool
  finalizeFails : Bool
  payCardDeclines : Bool
  payOtherFails : Bool
  retrieveIntentFails : Bool
  deriving DecidableEq, Repr

/-- A run on which every gateway call succeeds. -/
def noStripeFailures : StripeFailures :=
  ⟨false, false, false, false, false, false, false, false⟩

/-- Input of `stripeService.createPaymentWithInvoice` (interface
`PaymentData` in `stripe.service.ts`). -/
structure PaymentData where
  customerId : String
  paymentMethodId : String
  amount : Int
  currency : String
  description : Option String
  savePaymentMethod : Bool
  deriving DecidableEq, Repr

/-- One entry of the `items` array of `PaymentWithItemsData`. -/
structure ItemEntry where
  amount : Int
  description : String
  quantity : Option Nat
  deriving DecidableEq, Repr

/-- Input of `stripeService.createPaymentWithItems` (interface
`PaymentWithItemsData` in `stripe.service.ts`). -/
structure PaymentWithItemsData where
  customerId : String
  paymentMethodId : String
  items : List ItemEntry
  currency : String
  savePaymentMethod : Bool
  deriving DecidableEq, Repr

/-- The normalized result both checkout flows return:
`invoice, paymentIntent, invoiceUrl, invoicePdf`. -/
structure PaymentResult where
  invoiceId : String
  paymentIntentId : String
  invoiceUrl : String
  invoicePdf : String
  deriving DecidableEq, Repr

/-- JavaScript `data.description || 'One-time payment'`: the default kicks
in when the field is undefined or the empty string. -/
def orDefaultDescription : Option String → String
  | some s => if s = "" then "One-time payment" else s
  | none => "One-time payment"

/-- JavaScript `item.quantity || 1`: the default kicks in when the field is
undefined or `0`. -/
def orQuantityOne : Option Nat → Nat
  | some n => if n = 0 then 1 else n
  | none => 1

/-- Error translation performed by the catch block of both checkout flows:
a `StripeCardError` becomes a 400 carrying the processor message, anything
else becomes the generic 500. -/
def translatePaymentError : StripeRawErr → AppError
  | StripeRawErr.cardError msg => ⟨msg, 400⟩
  | StripeRawErr.other => ⟨"Payment processing failed", 500⟩

/-- The body of `stripeService.createPaymentWithInvoice` before its catch
block, step for step: optional attach + set-default, one invoice item,
create invoice, finalize, pay with the explicit method, retrieve the
payment intent.  Returns the raw outcome and the calls issued. -/
def stripeService.createPaymentWithInvoiceRaw (env : Env) (f : StripeFailures)
    (d : PaymentData) : Except StripeRawErr PaymentResult × List GatewayCall :=
  let afterAttach := fun (t : List GatewayCall) =>
    let t := t ++ [GatewayCall.createInvoiceItem d.customerId d.amount d.currency
      (orDefaultDescription d.description) 1]
    if f.invoiceItemFails then (Except.error StripeRawErr.other, t) else
    let t := t ++ [GatewayCall.createInvoice d.customerId]
    if f.createInvoiceFails then (Except.error StripeRawErr.other, t) else
    let t := t ++ [GatewayCall.finalizeInvoice env.invoiceId]
    if f.finalizeFails then (Except.error StripeRawErr.other, t) else
    let t := t ++ [GatewayCall.payInvoice env.invoiceId d.paymentMethodId]
    if f.payCardDeclines then (Except.error (StripeRawErr.cardError env.cardErrMessage), t) else
    if f.payOtherFails then (Except.error StripeRawErr.other, t) else
    let t := t ++ [GatewayCall.retrievePaymentIntent env.paymentIntentId]
    if f.retrieveIntentFails then (Except.error StripeRawErr.other, t) else
    (Except.ok { invoiceId := env.invoiceId, paymentIntentId := env.paymentIntentId,
                 invoiceUrl := env.hostedInvoiceUrl, invoicePdf := env.invoicePdfUrl }, t)
  if d.savePaymentMethod then
    let t := [GatewayCall.attachPaymentMethod d.paymentMethodId d.customerId]
    if f.attachFails then (Except.error StripeRawErr.other, t) else
    let t := t ++ [GatewayCall.setDefaultPaymentMethod d.customerId d.paymentMethodId]
    if f.setDefaultFails then (Except.error StripeRawErr.other, t) else
    afterAttach t
  else
    afterAttach []

/-- `stripeService.createPaymentWithInvoice`: the raw pipeline wrapped in
the catch block that translates Stripe errors. -/
def stripeService.createPaymentWithInvoice (env : Env) (f : StripeFailures)
    (d : PaymentData) : Except AppError PaymentResult × List GatewayCall :=
  match stripeService.createPaymentWithInvoiceRaw env f d with
  | (Except.ok r, t) => (Except.ok r, t)
  | (Except.error e, t) => (Except.error (translatePaymentError e), t)

/-- The `stripe.invoiceItems.create` call issued for one entry of the
multi-item flow: the item amount, the request currency, the item
description, and `quantity || 1`. -/
def itemCall (customerId currency : String) (it : ItemEntry) : GatewayCall :=
  GatewayCall.createInvoiceItem customerId it.amount currency it.description
    (orQuantityOne it.quantity)

/-- The body of `stripeService.createPaymentWithItems` before its catch
block: optional attach + set-default, one invoice item per entry of
`items` (no per-item amount check appears in the source), then the same
downstream steps as the single-amount flow. -/
def stripeService.createPaymentWithItemsRaw (env : Env) (f : StripeFailures)
    (d : PaymentWithItemsData) : Except StripeRawErr PaymentResult × List GatewayCall :=
  let afterAttach := fun (t : List GatewayCall) =>
    let t := t ++ d.items.map (itemCall d.customerId d.currency)
    if f.invoiceItemFails then (Except.error StripeRawErr.other, t) else
    let t := t ++ [GatewayCall.createInvoice d.customerId]
    if f.createInvoiceFails then (Except.error StripeRawErr.other, t) else
    let t := t ++ [GatewayCall.finalizeInvoice env.invoiceId]
    if f.finalizeFails then (Except.error StripeRawErr.other, t) else
    let t := t ++ [GatewayCall.payInvoice env.invoiceId d.paymentMethodId]
    if f.payCardDeclines then (Except.error (StripeRawErr.cardError env.cardErrMessage), t) else
    if f.payOtherFails then (Except.error StripeRawErr.other, t) else
    let t := t ++ [GatewayCall.retrievePaymentIntent env.paymentIntentId]
    if f.retrieveIntentFails then (Except.error StripeRawErr.other, t) else
    (Except.ok { invoiceId := env.invoiceId, paymentIntentId := env.paymentIntentId,
                 invoiceUrl := env.hostedInvoiceUrl, invoicePdf := env.invoicePdfUrl }, t)
  if d.savePaymentMethod then
    let t := [GatewayCall.attachPaymentMethod d.paymentMethodId d.customerId]
    if f.attachFails then (Except.error StripeRawErr.other, t) else
    let t := t ++ [GatewayCall.setDefaultPaymentMethod d.customerId d.paymentMethodId]
    if f.setDefaultFails then (Except.error StripeRawErr.other, t) else
    afterAttach t
  else
    afterAttach []

/-- `stripeService.createPaymentWithItems`: the raw pipeline wrapped in
the catch block that translates Stripe errors. -/
def stripeService.createPaymentWithItems (env : Env) (f : StripeFailures)
    (d : PaymentWithItemsData) : Except AppError PaymentResult × List GatewayCall :=
  match stripeService.createPaymentWithItemsRaw env f d with
  | (Except.ok r, t) => (Except.ok r, t)
  | (Except.error e, t) => (Except.error (translatePaymentError e), t)

/-! ## Request validation (`src/middleware/validation.ts`)

Each schema of `paymentValidation` is embedded rule by rule over a typed
request body (absent fields are `none`).  The engine's required-check
treats the empty string like an absent value (`value === ''`); optional
fields that are present still undergo the length checks. -/

/-- Errors produced by a `required: true, type: string` rule. -/
def requiredStringErrors (field : String) : Option String → List String
  | none => [field ++ " is required"]
  | some s => if s = "" then [field ++ " is required"] else []

/-- Errors produced by the `amount` rule of `paymentValidation.createPayment`:
`required: true, type: number, min: 1`. -/
def amountRuleErrors : Option Int → List String
  | none => ["amount is required"]
  | some a => if a < 1 then ["amount must be at least 1"] else []

/-- Errors produced by the `currency` rule: optional string with
`minLength: 3, maxLength: 3`. -/
def currencyLengthErrors : Option String → List String
  | none => []
  | some s =>
      (if s.length < 3 then ["currency must be at least 3 characters"] else [])
        ++ (if s.length > 3 then ["currency must not exceed 3 characters"] else [])

/-- Errors produced by the `description` rule: optional string with
`maxLength: 500`. -/
def descriptionRuleErrors : Option String → List String
  | none => []
  | some s => if s.length > 500 then ["description must not exceed 500 characters"] else []

/-- Errors produced by the `items` rule of
`paymentValidation.createPaymentWithItems`: `required: true, type: array`.
The source applies no check to the array's elements — in particular no
per-item amount rule — and an empty array passes the required-check. -/
def itemsRuleErrors : Option (List ItemEntry) → List String
  | none => ["items is required"]
  | some _ => []

/-- Body of a `POST create-payment` request as the validation layer and
controller read it. -/
structure PaymentReqBody where
  paymentMethodId : Option String
  amount : Option Int
  currency : Option String
  description : Option String
  savePaymentMethod : Option String
  deriving DecidableEq, Repr

/-- Body of a `POST create-payment-with-items` request. -/
structure ItemsReqBody where
  paymentMethodId : Option String
  items : Option (List ItemEntry)
  currency : Option String
  savePaymentMethod : Option String
  deriving DecidableEq, Repr

/-- `paymentValidation.createPayment`: the rule list applied in order,
errors accumulated.  The `savePaymentMethod` rule (optional string) can
produce no error on a typed body. -/
def paymentValidation.createPayment (b : PaymentReqBody) : List String :=
  requiredStringErrors "paymentMethodId" b.paymentMethodId
    ++ amountRuleErrors b.amount
    ++ currencyLengthErrors b.currency
    ++ descriptionRuleErrors b.description

/-- `paymentValidation.createPaymentWithItems`: the rule list applied in
order.  No rule inspects the items' amounts. -/
def paymentValidation.createPaymentWithItems (b : ItemsReqBody) : List String :=
  requiredStringErrors "paymentMethodId" b.paymentMethodId
    ++ itemsRuleErrors b.items
    ++ currencyLengthErrors b.currency

/-- The authenticated customer attached to the request by the middleware. -/
structure AuthedCustomer where
  id : String
  name : String
  email : String
  stripeCustomerId : Option String
  deriving DecidableEq, Repr

/-- The route `POST /create-payment`: validation middleware first (a
nonempty error list throws 400 with the joined messages before the
controller runs), then `stripeController.createPayment`, which defaults
the currency to "usd", reads `savePaymentMethod === 'true'` and delegates
to `stripeService.createPaymentWithInvoice`. -/
def stripeController.createPaymentRoute (env : Env) (f : StripeFailures)
    (cust : AuthedCustomer) (b : PaymentReqBody) :
    Except AppError PaymentResult × List GatewayCall :=
  let errs := paymentValidation.createPayment b
  if errs = [] then
    match cust.stripeCustomerId with
    | none => (Except.error ⟨"Customer not found or no Stripe ID", 404⟩, [])
    | some cid =>
        match b.paymentMethodId, b.amount with
        | some pm, some a =>
            stripeService.createPaymentWithInvoice env f
              { customerId := cid, paymentMethodId := pm, amount := a,
                currency := b.currency.getD "usd", description := b.description,
                savePaymentMethod := b.savePaymentMethod == some "true" }
        | _, _ => (Except.error ⟨"Payment processing failed", 500⟩, [])
  else (Except.error ⟨String.intercalate ", " errs, 400⟩, [])

/-- The route `POST /create-payment-with-items`: validation middleware,
then `stripeController.createPaymentWithItems`, which rejects an empty
items array with 400 and delegates to
`stripeService.createPaymentWithItems`. -/
def stripeController.createPaymentWithItemsRoute (env : Env) (f : StripeFailures)
    (cust : AuthedCustomer) (b : ItemsReqBody) :
    Except AppError PaymentResult × List GatewayCall :=
  let errs := paymentValidation.createPaymentWithItems b
  if errs = [] then
    match cust.stripeCustomerId with
    | none => (Except.error ⟨"Customer not found or no Stripe ID", 404⟩, [])
    | some cid =>
        match b.paymentMethodId, b.items with
        | some pm, some items =>
            if items.isEmpty then
              (Except.error ⟨"Items array is required and must not be empty", 400⟩, [])
            else
              stripeService.createPaymentWithItems env f
                { customerId := cid, paymentMethodId := pm, items := items,
                  currency := b.currency.getD "usd",
                  savePaymentMethod := b.savePaymentMethod == some "true" }
        | _, _ => (Except.error ⟨"Payment processing failed", 500⟩, [])
  else (Except.error ⟨String.intercalate ", " errs, 400⟩, [])

/-- `stripeController.getInvoice`: retrieve the invoice via
`stripeService.getInvoice` (whose catch turns any retrieve failure into
404 "Invoice not found"), then compare `invoice.customer` against the
caller's `stripeCustomerId`; a mismatch raises the same 404. -/
def stripeController.getInvoiceRoute (env : Env) (cust : AuthedCustomer)
    (invId : String) : Except AppError InvoiceRec × List GatewayCall :=
  match env.invoices invId with
  | none => (Except.error ⟨"Invoice not found", 404⟩, [GatewayCall.retrieveInvoice invId])
  | some inv =>
      if some inv.customer ≠ cust.stripeCustomerId then
        (Except.error ⟨"Invoice not found", 404⟩, [GatewayCall.retrieveInvoice invId])
      else (Except.ok inv, [GatewayCall.retrieveInvoice invId])

/-- `stripeController.sendInvoice`: same retrieval and ownership check as
`getInvoice`, then `stripeService.sendInvoice` (500 on failure). -/
def stripeController.sendInvoiceRoute (env : Env) (sendFails : Bool)
    (cust : AuthedCustomer) (invId : String) :
    Except AppError String × List GatewayCall :=
  match env.invoices invId with
  | none => (Except.error ⟨"Invoice not found", 404⟩, [GatewayCall.retrieveInvoice invId])
  | some inv =>
      if some inv.customer ≠ cust.stripeCustomerId then
        (Except.error ⟨"Invoice not found", 404⟩, [GatewayCall.retrieveInvoice invId])
      else if sendFails then
        (Except.error ⟨"Failed to send invoice", 500⟩,
          [GatewayCall.retrieveInvoice invId, GatewayCall.sendInvoiceEmail invId])
      else
        (Except.ok "Invoice sent successfully",
          [GatewayCall.retrieveInvoice invId, GatewayCall.sendInvoiceEmail invId])

/-- `stripeController.deletePaymentMethod`: retrieve the method via
`stripeService.getPaymentMethod` (whose catch turns any retrieve failure
into 404 "Payment method not found"), compare `paymentMethod.customer`
against the caller's `stripeCustomerId` (mismatch raises the same 404),
then detach. -/
def stripeController.deletePaymentMethodRoute (env : Env) (detachFails : Bool)
    (cust : AuthedCustomer) (pmId : String) :
    Except AppError String × List GatewayCall :=
  match env.paymentMethods pmId with
  | none =>
      (Except.error ⟨"Payment method not found", 404⟩, [GatewayCall.retrievePaymentMethod pmId])
  | some pm =>
      if pm.customer ≠ cust.stripeCustomerId then
        (Except.error ⟨"Payment method not found", 404⟩, [GatewayCall.retrievePaymentMethod pmId])
      else if detachFails then
        (Except.error ⟨"Failed to delete payment method", 500⟩,
          [GatewayCall.retrievePaymentMethod pmId, GatewayCall.detachPaymentMethod pmId])
      else
        (Except.ok "Payment method deleted successfully",
          [GatewayCall.retrievePaymentMethod pmId, GatewayCall.detachPaymentMethod pmId])

/-! ## Customer model (`src/models/Customer.ts`) -/

/-- A customer document as stored by the persistence layer.  `password`
is `none` when the field has been excluded from a loaded document (the
middleware's `select('-password')`). -/
structure DbCustomer where
  name : String
  email : String
  address : String
  phone : String
  password : Option String
  stripeCustomerId : Option String
  profilePictureUrl : Option String
  deriving DecidableEq, Repr

/-- Modelled from the bcrypt library: `bcrypt.hash(plain, 10)`, abstracted
as an injective tagging function.  The development uses only that the
stored value is the hash image of the plaintext and differs from it. -/
def bcryptHash (plain : String) : String := "$2b$10$" ++ plain

/-- The raw field set of a customer document as mongoose would serialize it
before the `toJSON` transform runs (schema fields plus the version key). -/
def customerJsonFields (c : DbCustomer) : List (String × String) :=
  [("name", c.name), ("email", c.email), ("address", c.address), ("phone", c.phone)]
    ++ (match c.password with | some p => [("password", p)] | none => [])
    ++ (match c.stripeCustomerId with | some s => [("stripeCustomerId", s)] | none => [])
    ++ (match c.profilePictureUrl with | some u => [("profilePictureUrl", u)] | none => [])
    ++ [("__v", "0")]

/-- The `toJSON` transform of `CustomerSchema`: it deletes `password` and
`__v` from the serialized object. -/
def customerToJSON (c : DbCustomer) : List (String × String) :=
  (customerJsonFields c).filter (fun kv => !(kv.1 == "password") && !(kv.1 == "__v"))

/-- The middleware's `Customer.findById(id).select('-password')`: the
loaded document with the password field excluded. -/
def selectWithoutPassword (c : DbCustomer) : DbCustomer :=
  { c with password := none }

/-! ## Registration saga (`src/controllers/auth.controller.ts`) -/

/-- Failure oracle for one registration attempt: does the gateway-side
customer creation fail, does the local save fail (and with which error),
does the compensating gateway delete fail. -/
structure RegOracle where
  stripeCreateFails : Bool
  dbSaveFails : Bool
  stripeDeleteFails : Bool
  dbErr : AppError
  deriving DecidableEq, Repr

/-- The joint state the registration saga manipulates: the local customer
collection and the set of gateway-side billing accounts. -/
structure RegState where
  customers : List DbCustomer
  accounts : List String
  deriving DecidableEq, Repr

/-- Body of a `POST register` request. -/
structure RegisterReq where
  name : String
  email : String
  address : String
  phone : String
  password : String
  deriving DecidableEq, Repr

/-- The 201 payload of a successful registration: token plus the explicit
customer object the controller builds (no password field exists on it). -/
structure RegisterResp where
  token : String
  customerName : String
  customerEmail : String
  stripeCustomerId : Option String
  deriving DecidableEq, Repr

/-- `authController.register`: check email uniqueness locally, create the
Stripe customer, then try to save the local document (its pre-save hook
hashes the password); if the save fails, delete the just-created Stripe
customer (that delete swallows its own failure) and rethrow the original
error.  `newAccountId` is the fresh id the gateway returns; the gateway
delete removes it again from the account set. -/
def authController.register (st : RegState) (o : RegOracle) (newAccountId : String)
    (r : RegisterReq) : Except AppError RegisterResp × RegState × List GatewayCall :=
  if st.customers.any (fun c => c.email == r.email) then
    (Except.error ⟨"Email already registered", 400⟩, st, [])
  else if o.stripeCreateFails then
    (Except.error ⟨"Failed to create Stripe customer", 500⟩, st,
      [GatewayCall.createCustomer r.email r.name])
  else
    let stWithAccount : RegState := ⟨st.customers, st.accounts ++ [newAccountId]⟩
    if o.dbSaveFails then
      let stAfterCleanup : RegState :=
        if o.stripeDeleteFails then stWithAccount
        else ⟨st.customers, (st.accounts ++ [newAccountId]).erase newAccountId⟩
      (Except.error o.dbErr, stAfterCleanup,
        [GatewayCall.createCustomer r.email r.name, GatewayCall.deleteCustomer newAccountId])
    else
      let saved : DbCustomer :=
        { name := r.name, email := r.email, address := r.address, phone := r.phone,
          password := some (bcryptHash r.password), stripeCustomerId := some newAccountId,
          profilePictureUrl := none }
      (Except.ok { token := "jwt:" ++ r.email, customerName := r.name,
                   customerEmail := r.email, stripeCustomerId := some newAccountId },
        ⟨st.customers ++ [saved], st.accounts ++ [newAccountId]⟩,
        [GatewayCall.createCustomer r.email r.name])

/-! ## Bearer-token middleware (`src/middleware/authentication.ts`)

`jsonwebtoken` is external: `jwt.verify` either returns the payload or
throws.  In the library, `TokenExpiredError` is a subclass of
`JsonWebTokenError` (its prototype chain extends it), which the
`instanceof` model below reflects. -/

/-- The error `jwt.verify` (or any other statement of the try block) can
throw into the middleware's catch. -/
inductive CaughtError where
  | jsonWebTokenErr
  | tokenExpiredErr
  | otherErr
  deriving DecidableEq, Repr

/-- `error instanceof jwt.JsonWebTokenError`: true for the base class and
for its subclass `TokenExpiredError`. -/
def isJsonWebTokenError : CaughtError → Bool
  | CaughtError.jsonWebTokenErr => true
  | CaughtError.tokenExpiredErr => true
  | CaughtError.otherErr => false

/-- `error instanceof jwt.TokenExpiredError`. -/
def isTokenExpiredError : CaughtError → Bool
  | CaughtError.tokenExpiredErr => true
  | _ => false

/-- Outcome of `jwt.verify` on this run. -/
inductive VerifyResult where
  | payload (id : String) (email : String)
  | thrown (e : CaughtError)
  deriving DecidableEq, Repr

/-- An HTTP response sent directly by the middleware. -/
structure HttpResponse where
  status : Nat
  message : String
  deriving DecidableEq, Repr

/-- What the middleware does with a request: respond itself (401/500) or
attach the loaded customer and continue. -/
inductive AuthOutcome where
  | respond (r : HttpResponse)
  | authed (c : DbCustomer) (token : String)
  deriving DecidableEq, Repr

/-- `authenticateToken`: extract the bearer token from the authorization
header, verify it, load the customer (without the password field), and
translate thrown errors in the catch block — testing
`instanceof JsonWebTokenError` before `instanceof TokenExpiredError`. -/
def authenticateToken (hdr : Option String) (verify : String → VerifyResult)
    (findById : String → Option DbCustomer) : AuthOutcome :=
  match hdr with
  | none => AuthOutcome.respond ⟨401, "Access token required"⟩
  | some h =>
      if h.data.take 7 = "Bearer ".data ∧ h.data.drop 7 ≠ [] then
        match verify (String.mk (h.data.drop 7)) with
        | VerifyResult.payload id _ =>
            match findById id with
            | none => AuthOutcome.respond ⟨401, "Invalid token - user not found"⟩
            | some c => AuthOutcome.authed (selectWithoutPassword c) (String.mk (h.data.drop 7))
        | VerifyResult.thrown e =>
            if isJsonWebTokenError e then AuthOutcome.respond ⟨401, "Invalid token"⟩
            else if isTokenExpiredError e then AuthOutcome.respond ⟨401, "Token expired"⟩
            else AuthOutcome.respond ⟨500, "Authentication failed"⟩
      else AuthOutcome.respond ⟨401, "Access token required"⟩

/-! ## Profile update (`src/controllers/customer.controller.ts` and
`stripeService.updateCustomer`) -/

/-- A profile-update body after the controller's allowed-fields filter:
only `name`, `address`, `phone` survive (absent keys are `none`). -/
structure ProfileUpdateBody where
  name : Option String
  address : Option String
  phone : Option String
  deriving DecidableEq, Repr

/-- JavaScript truthiness of `updates.field`: present and not the empty
string. -/
def jsTruthy : Option String → Bool
  | some s => !(s == "")
  | none => false

/-- `Object.assign(customer, updates)`: every present key overwrites the
stored value, absent keys leave it unchanged. -/
def applyProfileUpdates (c : DbCustomer) (b : ProfileUpdateBody) : DbCustomer :=
  { c with name := b.name.getD c.name, address := b.address.getD c.address,
           phone := b.phone.getD c.phone }

/-- The argument object of the `stripe.customers.update` mirror call:
`stripeService.updateCustomer` sends `name`, `phone`, and — when the
address is truthy — `line1: address` (a falsy address sends no address). -/
structure MirrorFields where
  name : String
  phone : String
  addressLine1 : Option String
  deriving DecidableEq, Repr

/-- The observable outcome of one profile update: the document the local
save persisted, the mirror call issued to the gateway (if any), and the
HTTP-level response. -/
structure ProfileUpdateOutcome where
  savedCustomer : DbCustomer
  mirrorCall : Option MirrorFields
  response : Except AppError DbCustomer
  deriving DecidableEq, Repr

/-- `customerController.updateProfile`: apply the filtered updates and
save locally, then — when the body holds a truthy `name`, `phone`, or
`address` — mirror the customer's current name, phone and address to
Stripe; `stripeService.updateCustomer` throws a 500 on gateway failure,
which propagates, but the local save is not rolled back. -/
def customerController.updateProfile (c : DbCustomer) (b : ProfileUpdateBody)
    (mirrorFails : Bool) : ProfileUpdateOutcome :=
  let updated := applyProfileUpdates c b
  if jsTruthy b.name || jsTruthy b.phone || jsTruthy b.address then
    let sent : MirrorFields :=
      { name := updated.name, phone := updated.phone,
        addressLine1 := if updated.address == "" then none else some updated.address }
    if mirrorFails then
      { savedCustomer := updated, mirrorCall := some sent,
        response := Except.error ⟨"Failed to update Stripe customer", 500⟩ }
    else
      { savedCustomer := updated, mirrorCall := some sent, response := Except.ok updated }
  else
    { savedCustomer := updated, mirrorCall := none, response := Except.ok updated }

/-! ## Best-effort cleanup (`stripeService.deleteCustomer` and
`storageService.deleteFile`) -/

/-- `stripeService.deleteCustomer`: the `stripe.customers.del` call inside
a try whose catch only logs ("Don't throw error on delete failure"). -/
def stripeService.deleteCustomer (customerId : String) (gatewayFails : Bool) :
    Except AppError Unit × List GatewayCall :=
  let raw : Except StripeRawErr Unit :=
    if gatewayFails then Except.error StripeRawErr.other else Except.ok ()
  match raw with
  | Except.ok _ => (Except.ok (), [GatewayCall.deleteCustomer customerId])
  | Except.error _ => (Except.ok (), [GatewayCall.deleteCustomer customerId])

/-- An error of the cloud storage client. -/
inductive CloudErr where
  | failure
  deriving DecidableEq, Repr

/-- The file-name extraction of `storageService.deleteFile`:
`url.split(base)[1]`, where a url not containing the bucket base or with
nothing after it yields a falsy name and an early return. -/
def extractStoredFileName (bucketName url : String) : Option String :=
  let base := ("https://storage.googleapis.com/" ++ bucketName ++ "/").data
  if url.data.take base.length = base then
    if url.data.drop base.length = [] then none
    else some (String.mk (url.data.drop base.length))
  else none

/-- `storageService.deleteFile`: returns silently when storage is not
configured, when the url yields no file name, or when the file does not
exist; a failing `file.delete()` is caught and only logged ("Don't throw
error on delete failure"). -/
def storageService.deleteFile (configured : Bool) (bucketName url : String)
    (fileIsThere gatewayFails : Bool) : Except AppError Unit :=
  if !configured then Except.ok ()
  else
    match extractStoredFileName bucketName url with
    | none => Except.ok ()
    | some _ =>
        if fileIsThere then
          let raw : Except CloudErr Unit :=
            if gatewayFails then Except.error CloudErr.failure else Except.ok ()
          match raw with
          | Except.ok _ => Except.ok ()
          | Except.error _ => Except.ok ()
        else Except.ok ()

/-! ## Trace observations -/

/-- Is this call a `stripe.invoiceItems.create`? -/
def isLineItemCall : GatewayCall → Bool
  | GatewayCall.createInvoiceItem _ _ _ _ _ => true
  | _ => false

/-- Is this call a `stripe.invoices.create`? -/
def isCreateInvoiceCall : GatewayCall → Bool
  | GatewayCall.createInvoice _ => true
  | _ => false

/-- Is this call one of the downstream steps shared by both checkout
flows (invoice creation, finalization, payment, intent retrieval)? -/
def isDownstreamCall : GatewayCall → Bool
  | GatewayCall.createInvoice _ => true
  | GatewayCall.finalizeInvoice _ => true
  | GatewayCall.payInvoice _ _ => true
  | GatewayCall.retrievePaymentIntent _ => true
  | _ => false

/-- The total the gateway will charge on the created invoice: the sum of
`amount * quantity` over the line items created in the trace (the gateway
sweeps all pending invoice items into the invoice). -/
def lineItemAmountTotal : List GatewayCall → Int
  | [] => 0
  | GatewayCall.createInvoiceItem _ a _ _ q :: rest => a * (q : Int) + lineItemAmountTotal rest
  | _ :: rest => lineItemAmountTotal rest

/-- The total of an items list as the multi-item flow will charge it:
`amount * (quantity || 1)` summed over the entries. -/
def itemsTotal : List ItemEntry → Int
  | [] => 0
  | it :: rest => it.amount * (orQuantityOne it.quantity : Int) + itemsTotal rest

lemma lineItemAmountTotal_append (xs ys : List GatewayCall) :
    lineItemAmountTotal (xs ++ ys) = lineItemAmountTotal xs + lineItemAmountTotal ys := by
  induction xs with
  | nil => simp [lineItemAmountTotal]
  | cons x rest ih =>
      cases x <;> simp [lineItemAmountTotal, ih, add_assoc]

lemma lineItemAmountTotal_map_itemCall (cid cur : String) (items : List ItemEntry) :
    lineItemAmountTotal (items.map (itemCall cid cur)) = itemsTotal items := by
  induction items with
  | nil => simp [lineItemAmountTotal, itemsTotal]
  | cons it rest ih => simp [lineItemAmountTotal, itemsTotal, itemCall, ih]

lemma filter_downstream_map_itemCall (cid cur : String) (items : List ItemEntry) :
    (items.map (itemCall cid cur)).filter isDownstreamCall = [] := by
  induction items with
  | nil => simp
  | cons it rest ih => simp [itemCall, isDownstreamCall, ih]

/-! ## Sample environment used by concrete runs -/

/-- A concrete gateway environment: the caller's account is `cus_1`;
`pm_foreign` is a payment method owned by `cus_other`, `in_foreign` an
invoice owned by `cus_other`; other lookups miss. -/
def sampleEnv : Env :=
  { invoiceId := "in_1", paymentIntentId := "pi_1",
    hostedInvoiceUrl := "https-inv", invoicePdfUrl := "https-pdf",
    cardErrMessage := "Your card was declined",
    paymentMethods := fun pmId =>
      if pmId = "pm_foreign" then some ⟨some "cus_other", "visa", "4242"⟩ else none,
    invoices := fun invId =>
      if invId = "in_foreign" then some ⟨"cus_other", "0001", "paid", 500, "usd", 0, "u", "v"⟩
      else none }

/-- A concrete authenticated caller whose billing account is `cus_1`. -/
def sampleCaller : AuthedCustomer := ⟨"id1", "Alice", "a@x.com", some "cus_1"⟩

/-! ## Claims -/

/-- Claim C6: `stripeService.deleteCustomer` never raises to its caller —
for every failure of the underlying gateway call the failure is swallowed
and the operation returns normally; likewise `storageService.deleteFile`
returns normally on every input, including when the storage delete fails. -/
theorem claim_C6_cleanup_never_raises :
    ∀ (customerId : String) (gatewayFails : Bool) (configured : Bool)
      (bucketName url : String) (fileIsThere storageFails : Bool),
      (stripeService.deleteCustomer customerId gatewayFails).1 = Except.ok ()
        ∧ storageService.deleteFile configured bucketName url fileIsThere storageFails
            = Except.ok () := by
  intro cid g c b u fi sf
  constructor
  · cases g <;> rfl
  · unfold storageService.deleteFile
    cases c
    · rfl
    · simp only [Bool.not_true, Bool.false_eq_true, if_false]
      cases extractStoredFileName b u
      · rfl
      · cases fi
        · simp
        · cases sf <;> simp

/-- Claim C8 (code-bug evaluation): an absent bearer token is answered 401
"Access token required" and an invalid token 401 "Invalid token", but an
expired token is ALSO answered 401 "Invalid token": in the jsonwebtoken
library `TokenExpiredError` extends `JsonWebTokenError`, and the catch
block tests `instanceof JsonWebTokenError` first, so the distinct
"Token expired" branch never fires. -/
theorem claim_C8_expired_token_message_bug :
    authenticateToken (some "Bearer sometoken")
        (fun _ => VerifyResult.thrown CaughtError.tokenExpiredErr) (fun _ => none)
      = AuthOutcome.respond ⟨401, "Invalid token"⟩
    ∧ authenticateToken none
        (fun _ => VerifyResult.thrown CaughtError.tokenExpiredErr) (fun _ => none)
      = AuthOutcome.respond ⟨401, "Access token required"⟩
    ∧ authenticateToken (some "Bearer sometoken")
        (fun _ => VerifyResult.thrown CaughtError.jsonWebTokenErr) (fun _ => none)
      = AuthOutcome.respond ⟨401, "Invalid token"⟩ := by
  refine ⟨?_, ?_, ?_⟩ <;> decide

/-- Claim C5: for invoice retrieval, invoice sending and payment-method
deletion, a resource whose owning account differs from the caller's is
answered with the same constant 404 "not found" error that a nonexistent
resource produces — never a 403 and never the resource body, so the
response does not depend on the foreign resource's content and does not
reveal its existence. -/
theorem claim_C5_foreign_lookup_is_not_found :
    ∀ (env : Env) (cust : AuthedCustomer) (cid invId pmId : String)
      (sendFails detachFails : Bool),
      cust.stripeCustomerId = some cid →
      (∀ inv : InvoiceRec, env.invoices invId = some inv → inv.customer ≠ cid →
          stripeController.getInvoiceRoute env cust invId
            = (Except.error ⟨"Invoice not found", 404⟩, [GatewayCall.retrieveInvoice invId])
          ∧ stripeController.sendInvoiceRoute env sendFails cust invId
            = (Except.error ⟨"Invoice not found", 404⟩, [GatewayCall.retrieveInvoice invId]))
        ∧ (env.invoices invId = none →
            stripeController.getInvoiceRoute env cust invId
              = (Except.error ⟨"Invoice not found", 404⟩, [GatewayCall.retrieveInvoice invId]))
        ∧ (∀ pm : PmRec, env.paymentMethods pmId = some pm → pm.customer ≠ some cid →
            stripeController.deletePaymentMethodRoute env detachFails cust pmId
              = (Except.error ⟨"Payment method not found", 404⟩,
                  [GatewayCall.retrievePaymentMethod pmId]))
        ∧ (env.paymentMethods pmId = none →
            stripeController.deletePaymentMethodRoute env detachFails cust pmId
              = (Except.error ⟨"Payment method not found", 404⟩,
                  [GatewayCall.retrievePaymentMethod pmId])) := by
  intro env cust cid invId pmId sendFails detachFails hcid
  refine ⟨?_, ?_, ?_, ?_⟩
  · intro inv hinv hne
    constructor
    · simp [stripeController.getInvoiceRoute, hinv, hcid, hne]
    · simp [stripeController.sendInvoiceRoute, hinv, hcid, hne]
  · intro hmiss
    simp [stripeController.getInvoiceRoute, hmiss]
  · intro pm hpm hne
    simp [stripeController.deletePaymentMethodRoute, hpm, hcid, hne]
  · intro hmiss
    simp [stripeController.deletePaymentMethodRoute, hmiss]

/-- Claim C5 witness: the concrete foreign invoice `in_foreign` and
foreign payment method `pm_foreign` of `sampleEnv` are answered with the
constant 404s for the caller owning `cus_1`. -/
theorem claim_C5_witness :
    sampleCaller.stripeCustomerId = some "cus_1"
    ∧ sampleEnv.invoices "in_foreign"
        = some ⟨"cus_other", "0001", "paid", 500, "usd", 0, "u", "v"⟩
    ∧ stripeController.getInvoiceRoute sampleEnv sampleCaller "in_foreign"
        = (Except.error ⟨"Invoice not found", 404⟩, [GatewayCall.retrieveInvoice "in_foreign"])
    ∧ stripeController.deletePaymentMethodRoute sampleEnv false sampleCaller "pm_foreign"
        = (Except.error ⟨"Payment method not found", 404⟩,
            [GatewayCall.retrievePaymentMethod "pm_foreign"]) :=
  ⟨rfl, by decide,
    ((claim_C5_foreign_lookup_is_not_found sampleEnv sampleCaller "cus_1" "in_foreign"
        "pm_foreign" false false rfl).1
      ⟨"cus_other", "0001", "paid", 500, "usd", 0, "u", "v"⟩ (by decide) (by decide)).1,
    (claim_C5_foreign_lookup_is_not_found sampleEnv sampleCaller "cus_1" "in_foreign"
        "pm_foreign" false false rfl).2.2.1
      ⟨some "cus_other", "visa", "4242"⟩ (by decide) (by decide)⟩

/-- Claim C1: every failing registration attempt leaves the local customer
collection unchanged; when the compensating gateway delete succeeds the
billing-account set is unchanged as well; and when the failure is the
local save (email free, gateway create succeeded) the original save error
is propagated and the compensating `deleteCustomer` call on the
just-created account was issued. -/
theorem claim_C1_registration_compensation :
    ∀ (st : RegState) (o : RegOracle) (newId : String) (r : RegisterReq)
      (e : AppError) (st' : RegState) (tr : List GatewayCall),
      newId ∉ st.accounts →
      authController.register st o newId r = (Except.error e, st', tr) →
      st'.customers = st.customers
        ∧ (o.stripeDeleteFails = false → st'.accounts = st.accounts)
        ∧ (st.customers.any (fun c => c.email == r.email) = false →
            o.stripeCreateFails = false →
            e = o.dbErr ∧ GatewayCall.deleteCustomer newId ∈ tr) := by
  intro st o newId r e st' tr hfresh hrun
  unfold authController.register at hrun
  split at hrun
  · -- email already registered
    rename_i hemail
    simp only [Prod.mk.injEq, Except.error.injEq] at hrun
    obtain ⟨hE, hS, hT⟩ := hrun
    subst hS
    refine ⟨rfl, fun _ => rfl, fun hfree _ => ?_⟩
    rw [hemail] at hfree
    exact absurd hfree (by simp)
  · split at hrun
    · -- gateway-side customer creation failed
      rename_i hcreate
      simp only [Prod.mk.injEq, Except.error.injEq] at hrun
      obtain ⟨hE, hS, hT⟩ := hrun
      subst hS
      refine ⟨rfl, fun _ => rfl, fun _ hcf => ?_⟩
      rw [hcreate] at hcf
      exact absurd hcf (by simp)
    · rename_i hemail hcreate
      simp only [Bool.not_eq_true] at hemail hcreate
      split at hrun
      · -- local save failed: compensating delete issued, original error rethrown
        split at hrun
        · -- the compensating delete itself failed (account orphaned)
          rename_i hdel
          simp only [Prod.mk.injEq, Except.error.injEq] at hrun
          obtain ⟨hE, hS, hT⟩ := hrun
          subst hS
          refine ⟨rfl, fun hdok => ?_, fun _ _ => ⟨hE.symm, ?_⟩⟩
          · rw [hdel] at hdok; exact absurd hdok (by simp)
          · rw [← hT]; simp
        · simp only [Prod.mk.injEq, Except.error.injEq] at hrun
          obtain ⟨hE, hS, hT⟩ := hrun
          subst hS
          refine ⟨rfl, fun _ => ?_, fun _ _ => ⟨hE.symm, ?_⟩⟩
          · show (st.accounts ++ [newId]).erase newId = st.accounts
            rw [List.erase_append_right _ hfresh]
            simp
          · rw [← hT]; simp
      · -- the save succeeded: the run cannot have produced an error
        simp only [Prod.mk.injEq] at hrun
        exact absurd hrun.1 (by simp)

/-- Concrete registration state for the C1 witness run: empty store. -/
def c1St : RegState := ⟨[], []⟩

/-- Concrete oracle for the C1 witness run: the gateway create succeeds,
the local save fails, the compensating delete succeeds. -/
def c1O : RegOracle := ⟨false, true, false, ⟨"db down", 500⟩⟩

/-- Concrete request for the C1 witness run. -/
def c1Req : RegisterReq := ⟨"Alice", "a@x.com", "addr", "1", "pw"⟩

/-- Claim C1 witness: on the concrete save-failure run the attempt errors
with the original save error, the state is unchanged on both sides, and
the compensating delete was issued. -/
theorem claim_C1_witness :
    ("cus_new" ∉ c1St.accounts
      ∧ authController.register c1St c1O "cus_new" c1Req
          = (Except.error ⟨"db down", 500⟩, c1St,
              [GatewayCall.createCustomer "a@x.com" "Alice",
               GatewayCall.deleteCustomer "cus_new"]))
    ∧ (c1St.customers = c1St.customers
        ∧ (c1O.stripeDeleteFails = false → c1St.accounts = c1St.accounts)
        ∧ (c1St.customers.any (fun c => c.email == c1Req.email) = false →
            c1O.stripeCreateFails = false →
            (⟨"db down", 500⟩ : AppError) = c1O.dbErr
              ∧ GatewayCall.deleteCustomer "cus_new"
                  ∈ [GatewayCall.createCustomer "a@x.com" "Alice",
                     GatewayCall.deleteCustomer "cus_new"])) :=
  ⟨⟨by decide, by decide⟩,
    claim_C1_registration_compensation c1St c1O "cus_new" c1Req ⟨"db down", 500⟩ c1St
      [GatewayCall.createCustomer "a@x.com" "Alice", GatewayCall.deleteCustomer "cus_new"]
      (by decide) (by decide)⟩

/-- Claim C4: in both checkout flows, when persisting the payment method
was requested and either the attach step or the set-as-default step
fails, the attempt errors and the trace holds no invoice-item creation
and no invoice creation. -/
theorem claim_C4_attach_failure_aborts_before_invoice :
    ∀ (env : Env) (f : StripeFailures) (d : PaymentData) (d2 : PaymentWithItemsData),
      f.attachFails = true ∨ f.setDefaultFails = true →
      (d.savePaymentMethod = true →
        (stripeService.createPaymentWithInvoice env f d).1
            = Except.error ⟨"Payment processing failed", 500⟩
          ∧ ((stripeService.createPaymentWithInvoice env f d).2.filter
              (fun c => isLineItemCall c || isCreateInvoiceCall c)) = [])
      ∧ (d2.savePaymentMethod = true →
        (stripeService.createPaymentWithItems env f d2).1
            = Except.error ⟨"Payment processing failed", 500⟩
          ∧ ((stripeService.createPaymentWithItems env f d2).2.filter
              (fun c => isLineItemCall c || isCreateInvoiceCall c)) = []) := by
  intro env f d d2 hfail
  constructor
  · intro hs
    cases hA : f.attachFails <;> cases hS : f.setDefaultFails
    · rw [hA] at hfail; rw [hS] at hfail
      rcases hfail with h | h <;> exact absurd h (by simp)
    all_goals
      constructor <;>
        simp [stripeService.createPaymentWithInvoice,
          stripeService.createPaymentWithInvoiceRaw, hs, hA, hS,
          translatePaymentError, isLineItemCall, isCreateInvoiceCall]
  · intro hs
    cases hA : f.attachFails <;> cases hS : f.setDefaultFails
    · rw [hA] at hfail; rw [hS] at hfail
      rcases hfail with h | h <;> exact absurd h (by simp)
    all_goals
      constructor <;>
        simp [stripeService.createPaymentWithItems,
          stripeService.createPaymentWithItemsRaw, hs, hA, hS,
          translatePaymentError, isLineItemCall, isCreateInvoiceCall]

/-- Concrete single-amount checkout input for the C4 witness run. -/
def c4Single : PaymentData := ⟨"cus_1", "pm_1", 500, "usd", none, true⟩

/-- Concrete multi-item checkout input for the C4 witness run. -/
def c4Items : PaymentWithItemsData := ⟨"cus_1", "pm_1", [⟨500, "A", none⟩], "usd", true⟩

/-- Concrete failure oracle for the C4 witness run: the attach step fails. -/
def c4Fail : StripeFailures := ⟨true, false, false, false, false, false, false, false⟩

/-- Claim C4 witness: on the concrete attach-failure run, both flows error
and issue no invoice-item and no invoice call. -/
theorem claim_C4_witness :
    (c4Fail.attachFails = true ∨ c4Fail.setDefaultFails = true)
    ∧ ((c4Single.savePaymentMethod = true →
          (stripeService.createPaymentWithInvoice sampleEnv c4Fail c4Single).1
              = Except.error ⟨"Payment processing failed", 500⟩
            ∧ ((stripeService.createPaymentWithInvoice sampleEnv c4Fail c4Single).2.filter
                (fun c => isLineItemCall c || isCreateInvoiceCall c)) = [])
        ∧ (c4Items.savePaymentMethod = true →
          (stripeService.createPaymentWithItems sampleEnv c4Fail c4Items).1
              = Except.error ⟨"Payment processing failed", 500⟩
            ∧ ((stripeService.createPaymentWithItems sampleEnv c4Fail c4Items).2.filter
                (fun c => isLineItemCall c || isCreateInvoiceCall c)) = [])) :=
  ⟨Or.inl (by decide),
    claim_C4_attach_failure_aborts_before_invoice sampleEnv c4Fail c4Single c4Items
      (Or.inl (by decide))⟩

/-- Claim C9: for a single-amount input and a multi-item input with the
same account, payment method, currency and save flag, whose line items
sum to the same total, the two checkout flows return the same result,
perform the same downstream gateway steps (invoice creation,
finalization, explicit-method payment, intent retrieval), and the
created line items carge the same invoice total. -/
theorem claim_C9_single_and_items_flows_agree :
    ∀ (env : Env) (f : StripeFailures) (d1 : PaymentData) (d2 : PaymentWithItemsData),
      d1.customerId = d2.customerId →
      d1.paymentMethodId = d2.paymentMethodId →
      d1.currency = d2.currency →
      d1.savePaymentMethod = d2.savePaymentMethod →
      d1.amount = itemsTotal d2.items →
      (stripeService.createPaymentWithInvoice env f d1).1
          = (stripeService.createPaymentWithItems env f d2).1
        ∧ ((stripeService.createPaymentWithInvoice env f d1).2.filter isDownstreamCall)
            = ((stripeService.createPaymentWithItems env f d2).2.filter isDownstreamCall)
        ∧ lineItemAmountTotal (stripeService.createPaymentWithInvoice env f d1).2
            = lineItemAmountTotal (stripeService.createPaymentWithItems env f d2).2 := by
  intro env f d1 d2 h1 h2 h3 h4 h5
  obtain ⟨c1, p1, a1, cur1, desc1, s1⟩ := d1
  obtain ⟨c2, p2, items2, cur2, s2⟩ := d2
  obtain ⟨fa, fsd, fii, fci, ffi, fcd, fpo, fri⟩ := f
  simp only at h1 h2 h3 h4 h5
  subst h1 h2 h3 h4 h5
  cases s1 <;> cases fa <;> cases fsd <;> cases fii <;> cases fci <;> cases ffi <;>
    cases fcd <;> cases fpo <;> cases fri <;>
    simp [stripeService.createPaymentWithInvoice, stripeService.createPaymentWithItems,
      stripeService.createPaymentWithInvoiceRaw, stripeService.createPaymentWithItemsRaw,
      translatePaymentError, lineItemAmountTotal, lineItemAmountTotal_append,
      lineItemAmountTotal_map_itemCall, filter_downstream_map_itemCall,
      isDownstreamCall, List.filter_append]

/-- Concrete single-amount input for the C9 witness run: 700 minor units. -/
def c9Single : PaymentData := ⟨"cus_1", "pm_1", 700, "usd", some "order", false⟩

/-- Concrete multi-item input for the C9 witness run:
300 + 200 * 2 = 700 minor units. -/
def c9Items : PaymentWithItemsData :=
  ⟨"cus_1", "pm_1", [⟨300, "A", none⟩, ⟨200, "B", some 2⟩], "usd", false⟩

/-- Claim C9 witness: on the concrete all-success run the two flows return
the same result, the same downstream steps, and the same charged total. -/
theorem claim_C9_witness :
    (c9Single.customerId = c9Items.customerId
      ∧ c9Single.paymentMethodId = c9Items.paymentMethodId
      ∧ c9Single.currency = c9Items.currency
      ∧ c9Single.savePaymentMethod = c9Items.savePaymentMethod
      ∧ c9Single.amount = itemsTotal c9Items.items)
    ∧ ((stripeService.createPaymentWithInvoice sampleEnv noStripeFailures c9Single).1
          = (stripeService.createPaymentWithItems sampleEnv noStripeFailures c9Items).1
        ∧ ((stripeService.createPaymentWithInvoice sampleEnv noStripeFailures c9Single).2.filter
              isDownstreamCall)
            = ((stripeService.createPaymentWithItems sampleEnv noStripeFailures c9Items).2.filter
              isDownstreamCall)
        ∧ lineItemAmountTotal
              (stripeService.createPaymentWithInvoice sampleEnv noStripeFailures c9Single).2
            = lineItemAmountTotal
              (stripeService.createPaymentWithItems sampleEnv noStripeFailures c9Items).2) :=
  ⟨⟨rfl, rfl, rfl, rfl, by decide⟩,
    claim_C9_single_and_items_flows_agree sampleEnv noStripeFailures c9Single c9Items
      rfl rfl rfl rfl (by decide)⟩

/-- Concrete multi-item request body for the C2 counterexample: a single
line item with amount 0. -/
def c2Body : ItemsReqBody := ⟨some "pm_1", some [⟨0, "zero", none⟩], some "usd", none⟩

/-- Claim C2 counterexample: a multi-item checkout whose only line item
has amount 0 passes the validation middleware, is not rejected by the
orchestrator, and results in a `stripe.invoiceItems.create` call carrying
amount 0 — a non-positive amount reaches the gateway, refuting the claim
that both flows reject zero or negative amounts before any gateway call. -/
theorem claim_C2_counterexample :
    paymentValidation.createPaymentWithItems c2Body = []
    ∧ GatewayCall.createInvoiceItem "cus_1" 0 "usd" "zero" 1
        ∈ (stripeController.createPaymentWithItemsRoute sampleEnv noStripeFailures
            sampleCaller c2Body).2
    ∧ (stripeController.createPaymentWithItemsRoute sampleEnv noStripeFailures
          sampleCaller c2Body).1
        = Except.ok ⟨"in_1", "pi_1", "https-inv", "https-pdf"⟩ := by
  refine ⟨by decide, by decide, by decide⟩

/-- Claim C2 (amended): in the single-amount flow a zero or negative
amount is rejected with a 400 by the upstream validation middleware
before any gateway call; the orchestrator itself checks no amounts, and
the multi-item flow validates per-item amounts nowhere, so it runs to
completion for arbitrary (including non-positive) item amounts. -/
theorem claim_C2_amended_amount_rejection :
    ∀ (env : Env) (f : StripeFailures) (cust : AuthedCustomer) (b : PaymentReqBody)
      (a : Int) (d : PaymentWithItemsData),
      (b.amount = some a → a < 1 →
        stripeController.createPaymentRoute env f cust b
          = (Except.error ⟨String.intercalate ", " (paymentValidation.createPayment b), 400⟩,
              ([] : List GatewayCall)))
      ∧ ((stripeService.createPaymentWithItems env noStripeFailures d).1
          = Except.ok ⟨env.invoiceId, env.paymentIntentId, env.hostedInvoiceUrl,
              env.invoicePdfUrl⟩) := by
  intro env f cust b a d
  constructor
  · intro hamt hlt
    have hmem : "amount must be at least 1" ∈ paymentValidation.createPayment b := by
      unfold paymentValidation.createPayment
      rw [hamt]
      simp [amountRuleErrors, hlt]
    have hne : paymentValidation.createPayment b ≠ [] := by
      intro h0; rw [h0] at hmem; exact absurd hmem (by simp)
    unfold stripeController.createPaymentRoute
    simp [hne]
  · obtain ⟨c2, p2, items2, cur2, s2⟩ := d
    cases s2 <;>
      simp [stripeService.createPaymentWithItems, stripeService.createPaymentWithItemsRaw,
        noStripeFailures]

/-- Concrete single-amount body with amount 0 for the C2 witness run. -/
def c2ZeroBody : PaymentReqBody := ⟨some "pm_1", some 0, some "usd", none, none⟩

/-- Claim C2 witness: the concrete single-amount request with amount 0 is
rejected with a 400 and an empty gateway trace, and the concrete
zero-amount multi-item data runs to completion. -/
theorem claim_C2_witness :
    (c2ZeroBody.amount = some 0 ∧ (0 : Int) < 1)
    ∧ ((c2ZeroBody.amount = some 0 → (0 : Int) < 1 →
          stripeController.createPaymentRoute sampleEnv noStripeFailures sampleCaller c2ZeroBody
            = (Except.error
                ⟨String.intercalate ", " (paymentValidation.createPayment c2ZeroBody), 400⟩,
                ([] : List GatewayCall)))
        ∧ ((stripeService.createPaymentWithItems sampleEnv noStripeFailures
              ⟨"cus_1", "pm_1", [⟨0, "zero", none⟩], "usd", false⟩).1
            = Except.ok ⟨sampleEnv.invoiceId, sampleEnv.paymentIntentId,
                sampleEnv.hostedInvoiceUrl, sampleEnv.invoicePdfUrl⟩)) :=
  ⟨⟨rfl, by decide⟩,
    claim_C2_amended_amount_rejection sampleEnv noStripeFailures sampleCaller c2ZeroBody 0
      ⟨"cus_1", "pm_1", [⟨0, "zero", none⟩], "usd", false⟩⟩

/-- Claim C3 counterexample: `pm_foreign` belongs to `cus_other`, not to
the caller's account `cus_1`, yet the create-payment route charges it:
the run succeeds, a `payInvoice` on `pm_foreign` is issued, and no
payment-method retrieval (the ownership probe) ever happens — refuting
the claim that every charge is preceded by an ownership check. -/
theorem claim_C3_counterexample :
    sampleEnv.paymentMethods "pm_foreign" = some ⟨some "cus_other", "visa", "4242"⟩
    ∧ sampleCaller.stripeCustomerId = some "cus_1"
    ∧ (stripeController.createPaymentRoute sampleEnv noStripeFailures sampleCaller
          ⟨some "pm_foreign", some 500, some "usd", none, none⟩).1
        = Except.ok ⟨"in_1", "pi_1", "https-inv", "https-pdf"⟩
    ∧ GatewayCall.payInvoice "in_1" "pm_foreign"
        ∈ (stripeController.createPaymentRoute sampleEnv noStripeFailures sampleCaller
            ⟨some "pm_foreign", some 500, some "usd", none, none⟩).2
    ∧ GatewayCall.retrievePaymentMethod "pm_foreign"
        ∉ (stripeController.createPaymentRoute sampleEnv noStripeFailures sampleCaller
            ⟨some "pm_foreign", some 500, some "usd", none, none⟩).2 := by
  refine ⟨by decide, by decide, by decide, by decide, by decide⟩

/-- Claim C3 (amended): detaching a payment method is preceded by an
explicit ownership check (a foreign method is answered with the constant
404 and is not detached), but the charge flows consult no ownership
information at all: the create-payment route's and the
create-payment-with-items route's outcomes are identical under any two
payment-method ownership assignments. -/
theorem claim_C3_amended_ownership_checks :
    ∀ (env : Env) (detachFails : Bool) (cust : AuthedCustomer) (cid pmId : String)
      (pm : PmRec) (f : StripeFailures) (b : PaymentReqBody) (bi : ItemsReqBody)
      (o1 o2 : String → Option PmRec),
      (cust.stripeCustomerId = some cid → env.paymentMethods pmId = some pm →
        pm.customer ≠ some cid →
        stripeController.deletePaymentMethodRoute env detachFails cust pmId
          = (Except.error ⟨"Payment method not found", 404⟩,
              [GatewayCall.retrievePaymentMethod pmId]))
      ∧ stripeController.createPaymentRoute { env with paymentMethods := o1 } f cust b
          = stripeController.createPaymentRoute { env with paymentMethods := o2 } f cust b
      ∧ stripeController.createPaymentWithItemsRoute { env with paymentMethods := o1 } f cust bi
          = stripeController.createPaymentWithItemsRoute { env with paymentMethods := o2 }
              f cust bi := by
  intro env detachFails cust cid pmId pm f b bi o1 o2
  refine ⟨?_, ?_, ?_⟩
  · intro hcid hpm hne
    simp [stripeController.deletePaymentMethodRoute, hpm, hcid, hne]
  · cases env
    rfl
  · cases env
    rfl

/-- Claim C3 witness: the concrete foreign detach attempt is answered 404
without a detach call, and both concrete charge runs are unaffected by
swapping every ownership assignment away. -/
theorem claim_C3_witness :
    (sampleCaller.stripeCustomerId = some "cus_1"
      ∧ sampleEnv.paymentMethods "pm_foreign" = some ⟨some "cus_other", "visa", "4242"⟩
      ∧ (⟨some "cus_other", "visa", "4242"⟩ : PmRec).customer ≠ some "cus_1")
    ∧ ((sampleCaller.stripeCustomerId = some "cus_1" →
          sampleEnv.paymentMethods "pm_foreign" = some ⟨some "cus_other", "visa", "4242"⟩ →
          (⟨some "cus_other", "visa", "4242"⟩ : PmRec).customer ≠ some "cus_1" →
          stripeController.deletePaymentMethodRoute sampleEnv false sampleCaller "pm_foreign"
            = (Except.error ⟨"Payment method not found", 404⟩,
                [GatewayCall.retrievePaymentMethod "pm_foreign"]))
        ∧ stripeController.createPaymentRoute
              { sampleEnv with paymentMethods := fun _ => none } noStripeFailures sampleCaller
              ⟨some "pm_foreign", some 500, some "usd", none, none⟩
            = stripeController.createPaymentRoute
              { sampleEnv with paymentMethods := fun _ => some ⟨some "cus_1", "mc", "1111"⟩ }
              noStripeFailures sampleCaller
              ⟨some "pm_foreign", some 500, some "usd", none, none⟩
        ∧ stripeController.createPaymentWithItemsRoute
              { sampleEnv with paymentMethods := fun _ => none } noStripeFailures sampleCaller
              ⟨some "pm_foreign", some [⟨500, "A", none⟩], some "usd", none⟩
            = stripeController.createPaymentWithItemsRoute
              { sampleEnv with paymentMethods := fun _ => some ⟨some "cus_1", "mc", "1111"⟩ }
              noStripeFailures sampleCaller
              ⟨some "pm_foreign", some [⟨500, "A", none⟩], some "usd", none⟩) :=
  ⟨⟨rfl, by decide, by decide⟩,
    claim_C3_amended_ownership_checks sampleEnv false sampleCaller "cus_1" "pm_foreign"
      ⟨some "cus_other", "visa", "4242"⟩ noStripeFailures
      ⟨some "pm_foreign", some 500, some "usd", none, none⟩
      ⟨some "pm_foreign", some [⟨500, "A", none⟩], some "usd", none⟩
      (fun _ => none) (fun _ => some ⟨some "cus_1", "mc", "1111"⟩)⟩

/-- Concrete stored customer for the C7 counterexample. -/
def c7Cust : DbCustomer :=
  ⟨"Alice", "a@x.com", "addrA", "111", some "h", some "cus_1", none⟩

/-- Concrete update body for the C7 counterexample: only the phone is in
the request. -/
def c7Body : ProfileUpdateBody := ⟨none, none, some "222"⟩

/-- Claim C7 counterexample: a profile update whose request contains only
the phone still sends the (unchanged) name and address to the gateway
mirror — refuting the claim that only the fields that changed are sent. -/
theorem claim_C7_counterexample :
    c7Body.name = none ∧ c7Body.address = none
    ∧ c7Cust.name = "Alice" ∧ c7Cust.address = "addrA"
    ∧ (customerController.updateProfile c7Cust c7Body false).mirrorCall
        = some ⟨"Alice", "222", some "addrA"⟩ := by
  refine ⟨rfl, rfl, rfl, rfl, by decide⟩

/-- Claim C7 (amended): the local mutation is applied first and persists
regardless of the mirror's outcome (no rollback); the gateway mirror is
invoked exactly when the request contains a truthy name, phone, or
address (not when a value actually changed); and the mirror then sends
the customer's full current name and phone (and the current address when
truthy), not only the fields that changed. -/
theorem claim_C7_amended_profile_update :
    ∀ (c : DbCustomer) (b : ProfileUpdateBody) (mirrorFails : Bool),
      (customerController.updateProfile c b mirrorFails).savedCustomer
          = applyProfileUpdates c b
      ∧ ((customerController.updateProfile c b mirrorFails).mirrorCall.isSome
          = (jsTruthy b.name || jsTruthy b.phone || jsTruthy b.address))
      ∧ (∀ m : MirrorFields,
          (customerController.updateProfile c b mirrorFails).mirrorCall = some m →
          m.name = (applyProfileUpdates c b).name
            ∧ m.phone = (applyProfileUpdates c b).phone
            ∧ m.addressLine1
                = (if (applyProfileUpdates c b).address == "" then none
                   else some (applyProfileUpdates c b).address)) := by
  intro c b mirrorFails
  unfold customerController.updateProfile
  cases hcond : (jsTruthy b.name || jsTruthy b.phone || jsTruthy b.address) <;>
    cases mirrorFails <;> simp [hcond]

/-- Claim C7 witness: the amended statement evaluated on the concrete
phone-only update with a failing mirror: the local mutation persists, the
mirror was invoked, and it carried the full current name, phone and
truthy address. -/
theorem claim_C7_witness :
    ((customerController.updateProfile c7Cust c7Body true).savedCustomer
        = applyProfileUpdates c7Cust c7Body
      ∧ ((customerController.updateProfile c7Cust c7Body true).mirrorCall.isSome
          = (jsTruthy c7Body.name || jsTruthy c7Body.phone || jsTruthy c7Body.address))
      ∧ (∀ m : MirrorFields,
          (customerController.updateProfile c7Cust c7Body true).mirrorCall = some m →
          m.name = (applyProfileUpdates c7Cust c7Body).name
            ∧ m.phone = (applyProfileUpdates c7Cust c7Body).phone
            ∧ m.addressLine1
                = (if (applyProfileUpdates c7Cust c7Body).address == "" then none
                   else some (applyProfileUpdates c7Cust c7Body).address)))
    ∧ (customerController.updateProfile c7Cust c7Body true).mirrorCall
        = some ⟨"Alice", "222", some "addrA"⟩ :=
  ⟨claim_C7_amended_profile_update c7Cust c7Body true, by decide⟩

/-- The hash stored for a plaintext differs from the plaintext: the
bcrypt prefix strictly lengthens the string. -/
lemma bcryptHash_ne_plain (p : String) : bcryptHash p ≠ p := by
  intro h
  have hl := congrArg String.length h
  rw [bcryptHash, String.length_append] at hl
  have h7 : ("$2b$10$" : String).length = 7 := by decide
  rw [h7] at hl
  omega

/-- Claim C10: the serialized customer object never carries a `password`
key (the `toJSON` transform deletes it); a successful registration stores
the bcrypt hash of the submitted password, never the plaintext; and the
customer the authentication middleware attaches to the request has the
password field excluded (`select('-password')`). -/
theorem claim_C10_password_never_exposed :
    ∀ (c : DbCustomer) (v : String) (st : RegState) (o : RegOracle) (newId : String)
      (r : RegisterReq) (resp : RegisterResp) (st' : RegState) (tr : List GatewayCall)
      (hdr : Option String) (verify : String → VerifyResult)
      (findById : String → Option DbCustomer) (cOut : DbCustomer) (tok : String),
      (("password", v) ∉ customerToJSON c)
      ∧ (authController.register st o newId r = (Except.ok resp, st', tr) →
          st'.customers = st.customers
              ++ [{ name := r.name, email := r.email, address := r.address, phone := r.phone,
                    password := some (bcryptHash r.password),
                    stripeCustomerId := some newId, profilePictureUrl := none }]
            ∧ bcryptHash r.password ≠ r.password)
      ∧ (authenticateToken hdr verify findById = AuthOutcome.authed cOut tok →
          cOut.password = none) := by
  intro c v st o newId r resp st' tr hdr verify findById cOut tok
  refine ⟨?_, ?_, ?_⟩
  · intro h
    simp [customerToJSON, List.mem_filter] at h
  · intro h
    unfold authController.register at h
    split at h
    · exact absurd (Prod.mk.injEq .. ▸ h).1 (by simp)
    · split at h
      · exact absurd (Prod.mk.injEq .. ▸ h).1 (by simp)
      · split at h
        · exact absurd (Prod.mk.injEq .. ▸ h).1 (by simp)
        · simp only [Prod.mk.injEq] at h
          obtain ⟨_, hS, _⟩ := h
          exact ⟨by rw [← hS], bcryptHash_ne_plain r.password⟩
  · intro h
    unfold authenticateToken at h
    split at h
    · exact absurd h (by simp)
    · split at h
      · split at h
        · split at h
          · exact absurd h (by simp)
          · simp only [AuthOutcome.authed.injEq] at h
            rw [← h.1]
            rfl
        · split at h
          · exact absurd h (by simp)
          · split at h <;> exact absurd h (by simp)
      · exact absurd h (by simp)

/-- Concrete stored customer (with a password on the document) for the
C10 witness run. -/
def c10Cust : DbCustomer :=
  ⟨"Bob", "b@x.com", "addrB", "333", some (bcryptHash "pw"), some "cus_9", none⟩

/-- Claim C10 witness: the concrete serialization carries no password
key, the concrete successful registration stores the hash, and the
concrete authenticated request carries a customer without a password. -/
theorem claim_C10_witness :
    (authController.register c1St ⟨false, false, false, ⟨"x", 500⟩⟩ "cus_9" c1Req
        = (Except.ok ⟨"jwt:" ++ "a@x.com", "Alice", "a@x.com", some "cus_9"⟩,
            ⟨[⟨"Alice", "a@x.com", "addr", "1", some (bcryptHash "pw"), some "cus_9", none⟩],
              ["cus_9"]⟩,
            [GatewayCall.createCustomer "a@x.com" "Alice"])
      ∧ authenticateToken (some "Bearer t")
          (fun _ => VerifyResult.payload "id9" "b@x.com") (fun _ => some c10Cust)
        = AuthOutcome.authed (selectWithoutPassword c10Cust) "t")
    ∧ ((("password", bcryptHash "pw")
          ∉ customerToJSON c10Cust)
        ∧ (authController.register c1St ⟨false, false, false, ⟨"x", 500⟩⟩ "cus_9" c1Req
            = (Except.ok ⟨"jwt:" ++ "a@x.com", "Alice", "a@x.com", some "cus_9"⟩,
                ⟨[⟨"Alice", "a@x.com", "addr", "1", some (bcryptHash "pw"), some "cus_9", none⟩],
                  ["cus_9"]⟩,
                [GatewayCall.createCustomer "a@x.com" "Alice"]) →
            (⟨[⟨"Alice", "a@x.com", "addr", "1", some (bcryptHash "pw"), some "cus_9", none⟩],
                ["cus_9"]⟩ : RegState).customers
              = c1St.customers
                  ++ [{ name := c1Req.name, email := c1Req.email, address := c1Req.address,
                        phone := c1Req.phone, password := some (bcryptHash c1Req.password),
                        stripeCustomerId := some "cus_9", profilePictureUrl := none }]
              ∧ bcryptHash c1Req.password ≠ c1Req.password)
        ∧ (authenticateToken (some "Bearer t")
              (fun _ => VerifyResult.payload "id9" "b@x.com") (fun _ => some c10Cust)
            = AuthOutcome.authed (selectWithoutPassword c10Cust) "t" →
            (selectWithoutPassword c10Cust).password = none)) :=
  ⟨⟨by decide, by decide⟩,
    claim_C10_password_never_exposed c10Cust (bcryptHash "pw") c1St
      ⟨false, false, false, ⟨"x", 500⟩⟩ "cus_9" c1Req
      ⟨"jwt:" ++ "a@x.com", "Alice", "a@x.com", some "cus_9"⟩
      ⟨[⟨"Alice", "a@x.com", "addr", "1", some (bcryptHash "pw"), some "cus_9", none⟩],
        ["cus_9"]⟩
      [GatewayCall.createCustomer "a@x.com" "Alice"]
      (some "Bearer t") (fun _ => VerifyResult.payload "id9" "b@x.com")
      (fun _ => some c10Cust) (selectWithoutPassword c10Cust) "t"⟩
